import Mathlib

/-!
# Dashboard component (`src/frontend.js`)

A shallow embedding of the React component `Dashboard`:

* the JavaScript values that the status endpoint can deliver (`JsVal`),
  with the language operations the component applies to them (property
  access, optional chaining, `||`, template literals,
  `Number.prototype.toFixed`, `Array.prototype.map`), following ECMA-262;
* the component state (`botStatus`, `tradeAmount`) and the mount effect
  `fetch('/api/status').then(res => res.json()).then(data => setBotStatus(data))`;
* the expressions rendered in the metric boxes and in the alerts panel;
* the trade submission behind the two buttons, whose handlers the source names
  without defining them, taken from the specification.

Numbers are IEEE-754 doubles, kept as exact integers `mant * 2 ^ exp`, so all
arithmetic below is exact integer arithmetic.
-/

set_option maxRecDepth 100000

namespace Realbot

/-! ## Numbers -/

/-- A finite double: the value is `(-1) ^ neg * mant * 2 ^ exp`. -/
structure Double where
  neg : Bool
  mant : Nat
  exp : Int
  mant_lt : mant < 2 ^ 53
  exp_lo : -1074 ≤ exp
  exp_hi : exp ≤ 971

/-- The JavaScript Number type. -/
inductive JsNum where
  | finite (d : Double)
  | infinity (neg : Bool)
  | nan

/-- Numerator of `|d|` written as a fraction whose denominator is a power of two. -/
def Double.num (d : Double) : Nat := d.mant * 2 ^ d.exp.toNat

/-- Denominator of `|d|`: `|d| = d.num / d.den`. -/
def Double.den (d : Double) : Nat := 2 ^ (-d.exp).toNat

/-- The mathematical value of a finite double. -/
def Double.toRat (d : Double) : ℚ :=
  (if d.neg then -1 else 1) * ((d.num : ℚ) / (d.den : ℚ))

/-- The test `x < 0` on the mathematical value (false for `-0`). -/
def Double.isNegative (d : Double) : Bool := d.neg && decide (0 < d.mant)

/-- The character of a decimal digit `0..9`. -/
def digitChar (n : Nat) : Char := Char.ofNat (48 + n % 10)

/-- Decimal digits of `n`, most significant first, `fuel` bounding the length. -/
def decimalDigitsAux : Nat → Nat → List Char
  | 0, _ => []
  | fuel + 1, n =>
    if n < 10 then [digitChar n]
    else decimalDigitsAux fuel (n / 10) ++ [digitChar n]

/-- The digits of the decimal representation of `n`, in order, with no leading zeros
(`0` is written `"0"`). -/
def decimalDigits (n : Nat) : List Char := decimalDigitsAux (n + 1) n

/-- Position of the highest set bit: `floor (log2 n)` for `n > 0`, and `0` for `n = 0`. -/
def log2Floor : Nat → Nat → Nat
  | 0, _ => 0
  | fuel + 1, n => if n < 2 then 0 else log2Floor fuel (n / 2) + 1

/-- The value `floor (log2 (a / b))` for positive `a` and `b`. -/
def log2FloorFrac (a b : Nat) : Int :=
  let t : Int := (log2Floor a a : Int) - (log2Floor b b : Int)
  if b * 2 ^ t.toNat ≤ a * 2 ^ (-t).toNat then t else t - 1

/-- Round the positive fraction `a / b` to the nearest double, ties to even:
the result `(m, e)` stands for `m * 2 ^ e`, with `m` a 53-bit significand except in
the subnormal range, where `e = -1074`. Overflow to infinity is not represented:
the result is then `2 ^ 53 * 2 ^ 971`, which is the value of no finite double. -/
def roundToDouble (a b : Nat) : Nat × Int :=
  let e : Int := max (log2FloorFrac a b - 52) (-1074)
  let A := a * 2 ^ (-e).toNat
  let B := b * 2 ^ e.toNat
  let q := A / B
  let r := A % B
  if B < 2 * r ∨ (2 * r = B ∧ q % 2 = 1) then (q + 1, e) else (q, e)

/-- Whether `m * 2 ^ e` is the value `a / b`. -/
def sameValue (m : Nat) (e : Int) (a b : Nat) : Bool :=
  decide (m * 2 ^ e.toNat * b = a * 2 ^ (-e).toNat)

/-- Whether the decimal `s * 10 ^ p` rounds to the double whose value is `a / b`. -/
def roundsTo (s : Nat) (p : Int) (a b : Nat) : Bool :=
  let r := roundToDouble (s * 10 ^ p.toNat) (10 ^ (-p).toNat)
  sameValue r.1 r.2 a b

/-- The integer `n` with `10 ^ (n - 1) ≤ a / b < 10 ^ n`, for positive `a / b`. -/
def decimalExponentAux : Nat → Nat → Nat → Int → Int
  | 0, _, _, acc => acc
  | fuel + 1, a, b, acc =>
    if a < b then decimalExponentAux fuel (a * 10) b (acc - 1) else acc

/-- The integer `n` with `10 ^ (n - 1) ≤ a / b < 10 ^ n`, for positive `a / b`. -/
def decimalExponent (a b : Nat) : Int :=
  if b ≤ a then ((decimalDigits (a / b)).length : Int)
  else decimalExponentAux 400 (a * 10) b 0

/-- The candidate with `k` significant digits for the shortest decimal that rounds to
`a / b`: the two `k`-digit decimals around `a / b` are tried, the one nearer to
`a / b` first (the even one on a tie). The result is `(n, s)`, standing for
`s * 10 ^ (n - k)`. -/
def shortestWith (a b : Nat) (n0 : Int) (k : Nat) : Option (Int × Nat) :=
  let p : Int := n0 - k
  let lo := (a * 10 ^ (-p).toNat) / (b * 10 ^ p.toNat)
  let hi : Int × Nat := if lo + 1 < 10 ^ k then (n0, lo + 1) else (n0 + 1, 10 ^ (k - 1))
  let okLo := roundsTo lo p a b
  let okHi := roundsTo hi.2 (hi.1 - k) a b
  let twice := (2 * lo + 1) * 10 ^ p.toNat * b
  let target := 2 * a * 10 ^ (-p).toNat
  let loFirst := decide (target < twice) || (decide (target = twice) && decide (lo % 2 = 0))
  if loFirst then
    if okLo then some (n0, lo) else if okHi then some hi else none
  else
    if okHi then some hi else if okLo then some (n0, lo) else none

/-- Search for the least number of digits `k` (step 5 of `Number::toString`). -/
def shortestAux (a b : Nat) (n0 : Int) : Nat → Nat → Int × Nat × Nat
  | 0, k => (n0, k, (a * 10 ^ (k - n0).toNat) / (b * 10 ^ (n0 - k).toNat))
  | fuel + 1, k =>
    match shortestWith a b n0 k with
    | some (n, s) => (n, k, s)
    | none => shortestAux a b n0 fuel (k + 1)

/-- Step 5 of `Number::toString` for the positive double of value `a / b`: integers
`(n, k, s)` with `10 ^ (k - 1) ≤ s < 10 ^ k`, such that `s * 10 ^ (n - k)` rounds to the
double, with `k` as small as possible and, among these, `s * 10 ^ (n - k)` nearest to
the value. -/
def shortestDecimal (a b : Nat) : Int × Nat × Nat :=
  shortestAux a b (decimalExponent a b) 17 1

/-- Steps 6 to 10 of `Number::toString`: the layout of the digits `s` (there are `k` of
them) with the decimal exponent `n`. -/
def layoutDecimal (n : Int) (k : Nat) (s : Nat) : List Char :=
  let ds := decimalDigits s
  if -5 ≤ n ∧ n ≤ 21 then
    if (k : Int) ≤ n then ds ++ List.replicate (n - k).toNat '0'
    else if 0 < n then ds.take n.toNat ++ '.' :: ds.drop n.toNat
    else '0' :: '.' :: (List.replicate (-n).toNat '0' ++ ds)
  else
    let e := n - 1
    let sign := if e < 0 then '-' else '+'
    let ex := decimalDigits e.natAbs
    if k = 1 then ds ++ 'e' :: sign :: ex
    else ds.take 1 ++ '.' :: (ds.drop 1 ++ 'e' :: sign :: ex)

/-- The function `Number::toString(x)` (radix 10) of ECMA-262 on a finite double. -/
def Double.toChars (d : Double) : List Char :=
  if d.mant = 0 then ['0']
  else
    let r := shortestDecimal d.num d.den
    (if d.neg then ['-'] else []) ++ layoutDecimal r.1 r.2.1 r.2.2

/-- The function `Number::toString(x)` (radix 10) of ECMA-262. -/
def numberToString : JsNum → String
  | .nan => "NaN"
  | .infinity neg => if neg then "-Infinity" else "Infinity"
  | .finite d => String.mk d.toChars

/-- The integer `n` for which `n / 10 ^ f - x` is as close to zero as possible, the
larger one if there are two (step 11.a of `Number.prototype.toFixed`), for `x = |d|`. -/
def Double.scaledRound (d : Double) (f : Nat) : Nat :=
  (2 * d.num * 10 ^ f + d.den) / (2 * d.den)

/-- Steps 11.b and 11.c of `Number.prototype.toFixed`: the digits of `n` with a decimal
point before the last `f` of them, zeros added in front when there are too few. -/
def fixedDigits (n f : Nat) : List Char :=
  let m := if n = 0 then ['0'] else decimalDigits n
  if f ≠ 0 then
    let k := m.length
    let m2 := if k ≤ f then List.replicate (f + 1 - k) '0' ++ m else m
    let k2 := if k ≤ f then f + 1 else k
    m2.take (k2 - f) ++ '.' :: m2.drop (k2 - f)
  else m

/-- The method `Number.prototype.toFixed(f)` of ECMA-262, for `0 ≤ f ≤ 100`. -/
def toFixed (x : JsNum) (f : Nat) : String :=
  match x with
  | .finite d =>
    let s := if d.isNegative then ['-'] else []
    if 10 ^ 21 * d.den ≤ d.num then
      String.mk (s ++ (Double.mk false d.mant d.exp d.mant_lt d.exp_lo d.exp_hi).toChars)
    else String.mk (s ++ fixedDigits (d.scaledRound f) f)
  | x => numberToString x

/-! ## Values and the operations of the language -/

/-- A JavaScript value as `res.json()` can deliver it (plus `undefined`). An object is
the list of its own properties, each name occurring once. -/
inductive JsVal where
  | undefined
  | null
  | bool (b : Bool)
  | num (n : JsNum)
  | str (s : String)
  | arr (items : List JsVal)
  | obj (fields : List (String × JsVal))

/-- The exceptions the component can raise while it renders. -/
inductive JsError where
  | typeError
  deriving DecidableEq

/-- The property names the component reads from the status. None of them is a
property of `Object.prototype`, `Array.prototype`, `String.prototype`,
`Number.prototype` or `Boolean.prototype`. -/
inductive PropName where
  | active
  | portfolio
  | totalValue
  | performance
  | dailyChange
  | alerts
  | type
  | time
  | message
  deriving DecidableEq

/-- The property name as written in the source. -/
def PropName.name : PropName → String
  | .active => "active"
  | .portfolio => "portfolio"
  | .totalValue => "totalValue"
  | .performance => "performance"
  | .dailyChange => "dailyChange"
  | .alerts => "alerts"
  | .type => "type"
  | .time => "time"
  | .message => "message"

/-- Whether a value is `undefined` or `null`. -/
def JsVal.isNullish : JsVal → Bool
  | .undefined => true
  | .null => true
  | _ => false

/-- Property access `v.p`: a `TypeError` on `undefined` and `null`, the own property of
an object when it has one, and `undefined` otherwise. -/
def getProp (v : JsVal) (p : PropName) : Except JsError JsVal :=
  match v with
  | .undefined => .error .typeError
  | .null => .error .typeError
  | .obj fields => .ok ((fields.lookup p.name).getD .undefined)
  | _ => .ok .undefined

/-- Optional chaining `v?.p`: `undefined` when `v` is `undefined` or `null`. -/
def optGet (v : JsVal) (p : PropName) : Except JsError JsVal :=
  if v.isNullish then .ok .undefined else getProp v p

/-- The call `v?.toFixed(f)`: `undefined` when `v` is `undefined` or `null`, the method
of `Number.prototype` on a number, and a `TypeError` on any other value, which has no
callable `toFixed`. -/
def optToFixed (v : JsVal) (f : Nat) : Except JsError JsVal :=
  match v with
  | .undefined => .ok .undefined
  | .null => .ok .undefined
  | .num n => .ok (.str (toFixed n f))
  | _ => .error .typeError

/-- The abstract operation `ToBoolean`. -/
def toBoolean : JsVal → Bool
  | .undefined => false
  | .null => false
  | .bool b => b
  | .num (.finite d) => decide (d.mant ≠ 0)
  | .num (.infinity _) => true
  | .num .nan => false
  | .str s => decide (s ≠ "")
  | .arr _ => true
  | .obj _ => true

/-- The operator `a || b`. -/
def jsOr (a b : JsVal) : JsVal := if toBoolean a then a else b

mutual
/-- The abstract operation `ToString`. An object from JSON has no callable property of
its own: without an own `toString` it is printed by `Object.prototype.toString`, with
one no conversion succeeds. An array is printed by `Array.prototype.join`. -/
def toStringJs : JsVal → Except JsError String
  | .undefined => .ok "undefined"
  | .null => .ok "null"
  | .bool b => .ok (if b then "true" else "false")
  | .num n => .ok (numberToString n)
  | .str s => .ok s
  | .arr items => joinJs items
  | .obj fields =>
    if (fields.lookup "toString").isSome then .error .typeError else .ok "[object Object]"
/-- The method `Array.prototype.join` with the separator `","`. -/
def joinJs : List JsVal → Except JsError String
  | [] => .ok ""
  | [.undefined] => .ok ""
  | [.null] => .ok ""
  | [x] => toStringJs x
  | .undefined :: rest => (joinJs rest).map (fun r => "," ++ r)
  | .null :: rest => (joinJs rest).map (fun r => "," ++ r)
  | x :: rest => (toStringJs x).bind (fun a => (joinJs rest).map (fun r => a ++ "," ++ r))
end

/-! ## The component -/

/-- The state of the component: the two `useState` cells. -/
structure DashboardState where
  botStatus : JsVal
  tradeAmount : String

/-- The state at mount: `useState({})` and `useState('')`. -/
def initialState : DashboardState := ⟨.obj [], ""⟩

/-- The setter of `botStatus`. -/
def setBotStatus (s : DashboardState) (data : JsVal) : DashboardState :=
  { s with botStatus := data }

/-- The setter of `tradeAmount`, called by `onChange` with `e.target.value`. -/
def setTradeAmount (s : DashboardState) (value : String) : DashboardState :=
  { s with tradeAmount := value }

/-- A settled promise. -/
inductive Settled (α : Type) where
  | fulfilled (value : α)
  | rejected

/-- The method `then` with one callback: the callback runs on fulfilment only and a
rejection is passed on. -/
def Settled.andThen {α β : Type} (p : Settled α) (f : α → Settled β) : Settled β :=
  match p with
  | .fulfilled a => f a
  | .rejected => .rejected

/-- What the component can observe of a response: the HTTP status code and the outcome
of `res.json()`, rejected when the body is not valid JSON. -/
structure Response where
  status : Nat
  json : Settled JsVal

/-- The flag `res.ok`: the status is in the range 200 to 299. -/
def Response.ok (res : Response) : Bool := decide (200 ≤ res.status ∧ res.status ≤ 299)

/-- The chain `fetch('/api/status').then(res => res.json())`, given the outcome of
`fetch`, which rejects on a transport failure only. -/
def fetchStatus (fetched : Settled Response) : Settled JsVal :=
  fetched.andThen (fun res => res.json)

/-- The last link `.then(data => setBotStatus(data))`: the state after the chain of one
request has settled. -/
def applyFetch (s : DashboardState) (fetched : Settled Response) : DashboardState :=
  match fetchStatus fetched with
  | .fulfilled data => setBotStatus s data
  | .rejected => s

/-- What happens to the component between renders: the mount effect issues request
`id`, or the promise chain of request `id` settles. -/
inductive Event where
  | requestIssued (id : Nat)
  | chainSettled (id : Nat) (fetched : Settled Response)

/-- One event. Issuing a request records nothing in the state, and a settled chain is
applied whichever request it belongs to. -/
def step (s : DashboardState) : Event → DashboardState
  | .requestIssued _ => s
  | .chainSettled _ fetched => applyFetch s fetched

/-- A sequence of events, in the order in which they happen. -/
def run (s : DashboardState) (events : List Event) : DashboardState :=
  events.foldl step s

/-- The heading text `botStatus.active ? '🟢 Running' : '🔴 Stopped'`. -/
def statusHeading (botStatus : JsVal) : Except JsError String :=
  (getProp botStatus .active).map (fun a => if toBoolean a then "🟢 Running" else "🔴 Stopped")

/-- The expression `botStatus.portfolio?.totalValue?.toFixed(2) || '0.00'`. -/
def totalValueLabel (botStatus : JsVal) : Except JsError JsVal :=
  (getProp botStatus .portfolio).bind fun portfolio =>
  (optGet portfolio .totalValue).bind fun totalValue =>
  (optToFixed totalValue 2).map fun fixed => jsOr fixed (.str "0.00")

/-- The expression `botStatus.performance?.dailyChange?.toFixed(2)`. -/
def dailyChangeLabel (botStatus : JsVal) : Except JsError JsVal :=
  (getProp botStatus .performance).bind fun performance =>
  (optGet performance .dailyChange).bind fun dailyChange =>
  optToFixed dailyChange 2

/-- A rendered alert: the element `<div key=... className=...>` with its children. -/
structure AlertEntry where
  key : Nat
  className : String
  children : List JsVal

/-- The callback of `map`: the element for `alert` at index `i`. -/
def renderAlert (alert : JsVal) (i : Nat) : Except JsError AlertEntry :=
  (getProp alert .type).bind fun type =>
  (toStringJs type).bind fun typeText =>
  (getProp alert .time).bind fun time =>
  (getProp alert .message).map fun message =>
  { key := i, className := "alert " ++ typeText,
    children := [.str "[", time, .str "] ", message] }

/-- The method `Array.prototype.map` with the callback `renderAlert`, from index `i`. -/
def mapAlerts : List JsVal → Nat → Except JsError (List AlertEntry)
  | [], _ => .ok []
  | alert :: rest, i =>
    (renderAlert alert i).bind fun entry =>
    (mapAlerts rest (i + 1)).map fun entries => entry :: entries

/-- The expression `botStatus.alerts?.map((alert, i) => ...)`: `none` stands for
`undefined`, which renders nothing. Only an array has a callable `map`. -/
def alertsPanel (botStatus : JsVal) : Except JsError (Option (List AlertEntry)) :=
  (getProp botStatus .alerts).bind fun alerts =>
  match alerts with
  | .undefined => .ok none
  | .null => .ok none
  | .arr items => (mapAlerts items 0).map some
  | _ => .error .typeError

/-- What the component renders from its state. The chart data, the chart options and
the click handlers are free names of the source file and do not depend on the state. -/
structure View where
  heading : String
  totalValue : JsVal
  dailyChange : JsVal
  amountInput : String
  alerts : Option (List AlertEntry)

/-- The function component `Dashboard`, as a function of its state. -/
def Dashboard (s : DashboardState) : Except JsError View :=
  (statusHeading s.botStatus).bind fun heading =>
  (totalValueLabel s.botStatus).bind fun totalValue =>
  (dailyChangeLabel s.botStatus).bind fun dailyChange =>
  (alertsPanel s.botStatus).map fun alerts =>
  { heading := heading, totalValue := totalValue, dailyChange := dailyChange,
    amountInput := s.tradeAmount, alerts := alerts }

/-- An alert of the data model. -/
structure Alert where
  time : String
  message : String
  type : String

/-- The alert as the status endpoint delivers it. -/
def Alert.toJs (a : Alert) : JsVal :=
  .obj [("time", .str a.time), ("message", .str a.message), ("type", .str a.type)]

/-- The alert of the data model that a value holds: the value is an object whose `time`,
`message` and `type` are strings; it may have other properties. -/
def readAlert (v : JsVal) : Option Alert :=
  match v with
  | .obj fields =>
    match fields.lookup "time", fields.lookup "message", fields.lookup "type" with
    | some (.str time), some (.str message), some (.str type) => some ⟨time, message, type⟩
    | _, _, _ => none
  | _ => none

/-- The status object whose only property is `alerts`, holding the given alerts. -/
def statusWithAlerts (alerts : List Alert) : JsVal :=
  .obj [("alerts", .arr (alerts.map Alert.toJs))]

/-- The status object whose only property is `performance`, holding `dailyChange`. -/
def statusWithDailyChange (x : JsNum) : JsVal :=
  .obj [("performance", .obj [("dailyChange", .num x)])]

/-- The double `10 ^ 21 = 476837158203125 * 2 ^ 21`. -/
def tenPow21 : Double := ⟨false, 476837158203125, 21, by decide, by decide, by decide⟩

/-- The double `0`. -/
def zeroDouble : Double := ⟨false, 0, 0, by decide, by decide, by decide⟩

/-- The double `-1.5 = -(3 * 2 ^ (-1))`. -/
def minusOneAndHalf : Double := ⟨true, 3, -1, by decide, by decide, by decide⟩

/-- The status `{"active": true}`. -/
def runningStatus : JsVal := .obj [("active", .bool true)]

/-- The status `{"active": false}`. -/
def stoppedStatus : JsVal := .obj [("active", .bool false)]

/-- A response with the given HTTP status whose body parses to `data`. -/
def jsonResponse (status : Nat) (data : JsVal) : Settled Response :=
  .fulfilled ⟨status, .fulfilled data⟩

/-- A response with the given HTTP status whose body is not valid JSON. -/
def malformedResponse (status : Nat) : Settled Response :=
  .fulfilled ⟨status, .rejected⟩

/-- The alert `{time: "10:01", message: "A", type: "info"}`. -/
def alertA : Alert := ⟨"10:01", "A", "info"⟩

/-- The alert `{time: "10:02", message: "B", type: "warning"}`. -/
def alertB : Alert := ⟨"10:02", "B", "warning"⟩

/-! ## Trade submission

The source binds the buttons to `handleBuy` and `handleSell` and never defines them.
The definitions of this section follow the specification of TradeController. -/

/-- Modelled from the spec: the side of a trade request, one per handler (`handleBuy`,
`handleSell`), which the source names and does not define. -/
inductive Side where
  | buy
  | sell
  deriving DecidableEq

/-- Modelled from the spec: a positive decimal amount `digits / 10 ^ scale`, the amount
of a trade request, which the source does not define. -/
structure Amount where
  digits : Nat
  scale : Nat
  deriving DecidableEq

/-- Modelled from the spec: a trade request (side and amount), which the source does
not define; the submission time is left out. -/
structure TradeRequest where
  side : Side
  amount : Amount
  deriving DecidableEq

/-- Modelled from the spec: the states of TradeController, which the source does not
define. -/
inductive TradeState where
  | Idle
  | Pending
  | Succeeded
  | Failed (reason : String)
  deriving DecidableEq

/-- Modelled from the spec: the value of a string of decimal digits, or `none` if some
character is not a digit; part of the amount parser, which the source does not define. -/
def digitsValue : List Char → Nat → Option Nat
  | [], acc => some acc
  | c :: rest, acc => if c.isDigit then digitsValue rest (10 * acc + (c.toNat - 48)) else none

/-- Modelled from the spec: the number a raw amount parses to, as a sign (`true` for
negative) and a magnitude. The spec leaves the grammar open and the source does not
define the parser: decimal numerals are read, with an optional sign, digits, and
optionally a point and more digits, at least one digit in all. -/
def parseAmount (rawAmount : String) : Option (Bool × Amount) :=
  let chars := rawAmount.toList
  let neg := chars.head? = some '-'
  let unsigned := if chars.head? = some '-' ∨ chars.head? = some '+' then chars.tail else chars
  let whole := unsigned.takeWhile (fun c => c != '.')
  let rest := unsigned.dropWhile (fun c => c != '.')
  let frac := rest.tail
  if whole ++ frac = [] then none
  else (digitsValue (whole ++ frac) 0).map fun v => (decide neg, ⟨v, frac.length⟩)

/-- Modelled from the spec: the amount of the request built from a raw amount, present
only if the raw amount parses to a finite number greater than 0; the source does not
define this check. -/
def positiveAmount (rawAmount : String) : Option Amount :=
  match parseAmount rawAmount with
  | some (false, amount) => if 0 < amount.digits then some amount else none
  | _ => none

/-- Modelled from the spec: TradeController, which the source does not define: its
state, the requests sent to the trade endpoint (latest first), and whether an
input-validation error is shown. -/
structure TradeController where
  state : TradeState
  sent : List TradeRequest
  validationError : Bool

/-- Modelled from the spec: the controller before any submission. -/
def TradeController.idle : TradeController := ⟨.Idle, [], false⟩

/-- Modelled from the spec: `submit(side, rawAmount)`, which the source does not define.
While a request is pending the call is refused. Otherwise (a submission from
`Succeeded` or `Failed` acknowledges the result first) a raw amount that parses to a
finite number greater than 0 moves to `Pending` with one call of the trade endpoint,
and any other raw amount is refused with a validation error and no call. -/
def TradeController.submit (tc : TradeController) (side : Side) (rawAmount : String) :
    TradeController :=
  match tc.state with
  | .Pending => tc
  | _ =>
    match positiveAmount rawAmount with
    | some amount => ⟨.Pending, ⟨side, amount⟩ :: tc.sent, false⟩
    | none => ⟨.Idle, tc.sent, true⟩

/-- Modelled from the spec: the transition `backendAccepts`, which the source does not
define. -/
def TradeController.backendAccepts (tc : TradeController) : TradeController :=
  match tc.state with
  | .Pending => { tc with state := .Succeeded }
  | _ => tc

/-- Modelled from the spec: the transition `backendRejects(reason)`, which the source
does not define. -/
def TradeController.backendRejects (tc : TradeController) (reason : String) :
    TradeController :=
  match tc.state with
  | .Pending => { tc with state := .Failed reason }
  | _ => tc

/-- Modelled from the spec: the transition `acknowledge`, which the source does not
define. -/
def TradeController.acknowledge (tc : TradeController) : TradeController :=
  match tc.state with
  | .Succeeded => { tc with state := .Idle }
  | .Failed _ => { tc with state := .Idle }
  | _ => tc

/-- Modelled from the spec: the handler `handleBuy`, which the source names and does
not define: a submission of the amount typed into the input. -/
def handleBuy (s : DashboardState) (tc : TradeController) : TradeController :=
  tc.submit .buy s.tradeAmount

/-- Modelled from the spec: the handler `handleSell`, which the source names and does
not define: a submission of the amount typed into the input. -/
def handleSell (s : DashboardState) (tc : TradeController) : TradeController :=
  tc.submit .sell s.tradeAmount

/-- The number `x` rounded to two digits after the decimal point, ties away from zero,
with the sign of `x` kept: the sign, the integer part of the rounded magnitude, a
point, and its two decimals. -/
def roundedToTwoDecimals (x : ℚ) : String :=
  let n := ⌊100 * abs x + 1 / 2⌋₊
  (if x < 0 then "-" else "") ++ toString (n / 100) ++ "." ++ toString (n / 10 % 10) ++
    toString (n % 10)

/-! ## Properties of the stored status -/

/-- Rendering a value that holds an alert of the data model never fails. -/
theorem renderAlert_of_readAlert (v : JsVal) (a : Alert) (i : Nat)
    (h : readAlert v = some a) :
    renderAlert v i =
      .ok ⟨i, "alert " ++ a.type, [.str "[", .str a.time, .str "] ", .str a.message]⟩ := by
  unfold readAlert at h
  split at h
  · split at h
    · rename_i htime hmessage htype
      cases h
      simp only [renderAlert, getProp, PropName.name, htime, hmessage, htype,
        Option.getD_some, Except.bind, toStringJs, Except.map]
    · cases h
  · cases h

/-- The value delivered for an alert holds that alert. -/
theorem readAlert_toJs (a : Alert) : readAlert a.toJs = some a := rfl

/-- Mapping over values that hold alerts yields one entry per alert, numbered from `i`. -/
theorem mapAlerts_of_readAlert (items : List JsVal) (as : List Alert) (i : Nat)
    (h : items.map readAlert = as.map some) :
    mapAlerts items i =
      .ok ((as.enumFrom i).map fun ia =>
        ⟨ia.1, "alert " ++ ia.2.type,
          [.str "[", .str ia.2.time, .str "] ", .str ia.2.message]⟩) := by
  induction items generalizing as i with
  | nil =>
    cases as with
    | nil => rfl
    | cons a rest => simp at h
  | cons v items ih =>
    cases as with
    | nil => simp at h
    | cons a rest =>
      simp only [List.map_cons, List.cons.injEq] at h
      simp only [mapAlerts, renderAlert_of_readAlert v a i h.1, ih rest (i + 1) h.2,
        List.enumFrom_cons]
      rfl

/-- The alerts panel of a status whose `alerts` hold alerts of the data model. -/
theorem alertsPanel_of_readAlert (fields : List (String × JsVal)) (items : List JsVal)
    (as : List Alert) (h : fields.lookup "alerts" = some (.arr items))
    (hitems : items.map readAlert = as.map some) :
    alertsPanel (.obj fields) =
      .ok (some (as.enum.map fun ia =>
        ⟨ia.1, "alert " ++ ia.2.type,
          [.str "[", .str ia.2.time, .str "] ", .str ia.2.message]⟩)) := by
  simp only [alertsPanel, getProp, PropName.name, h, Option.getD_some, Except.bind,
    mapAlerts_of_readAlert items as 0 hitems, Except.map, List.enum]

/-- C1: a stored status without `portfolio` renders the portfolio value label "0.00". -/
theorem totalValueLabel_portfolio_absent (fields : List (String × JsVal))
    (h : fields.lookup "portfolio" = none) :
    totalValueLabel (.obj fields) = .ok (.str "0.00") := by
  simp only [totalValueLabel, getProp, PropName.name, h, Option.getD_none]
  rfl

/-- C1 at the initial state `{}`, before any response has been applied. -/
theorem totalValueLabel_portfolio_absent_witness :
    ([] : List (String × JsVal)).lookup "portfolio" = none ∧
      totalValueLabel initialState.botStatus = .ok (.str "0.00") ∧
      (Dashboard initialState).map View.totalValue = .ok (.str "0.00") :=
  ⟨rfl, totalValueLabel_portfolio_absent [] rfl, rfl⟩

/-- The daily-change label of a status whose `performance.dailyChange` is a number. -/
theorem dailyChangeLabel_number (fields perf : List (String × JsVal)) (x : JsNum)
    (hp : fields.lookup "performance" = some (.obj perf))
    (hd : perf.lookup "dailyChange" = some (.num x)) :
    dailyChangeLabel (.obj fields) = .ok (.str (toFixed x 2)) := by
  simp only [dailyChangeLabel, getProp, PropName.name, hp, Option.getD_some, Except.bind,
    optGet, JsVal.isNullish, hd, optToFixed]
  rfl

/-- The denominator of a double is positive. -/
theorem Double.den_pos (d : Double) : 0 < d.den := by
  unfold Double.den
  positivity

/-- Zero, of either sign and with any exponent, is printed "0.00". -/
theorem toFixed_zero (d : Double) (h : d.mant = 0) : toFixed (.finite d) 2 = "0.00" := by
  have hnum : d.num = 0 := by simp [Double.num, h]
  have hden := d.den_pos
  have hneg : d.isNegative = false := by simp [Double.isNegative, h]
  have hbig : ¬ (10 ^ 21 * d.den ≤ d.num) := by rw [hnum]; omega
  have hround : d.scaledRound 2 = 0 := by
    simp only [Double.scaledRound, hnum]
    apply Nat.div_eq_of_lt
    omega
  simp only [toFixed, hneg, hbig, hround]
  rfl

/-- C3: a stored status without `performance` has the daily-change label `undefined`, no
default number is put in its place, and so it differs from the label "0.00" of a status
whose `dailyChange` is 0. -/
theorem dailyChangeLabel_performance_absent (fields : List (String × JsVal))
    (h : fields.lookup "performance" = none) :
    dailyChangeLabel (.obj fields) = .ok .undefined ∧
      ∀ (fields0 perf : List (String × JsVal)) (d : Double),
        fields0.lookup "performance" = some (.obj perf) →
        perf.lookup "dailyChange" = some (.num (.finite d)) → d.mant = 0 →
        dailyChangeLabel (.obj fields0) = .ok (.str "0.00") ∧
          dailyChangeLabel (.obj fields) ≠ dailyChangeLabel (.obj fields0) := by
  have habsent : dailyChangeLabel (.obj fields) = .ok .undefined := by
    simp only [dailyChangeLabel, getProp, PropName.name, h, Option.getD_none]
    rfl
  refine ⟨habsent, ?_⟩
  intro fields0 perf d hp hd hz
  have hzero : dailyChangeLabel (.obj fields0) = .ok (.str "0.00") := by
    rw [dailyChangeLabel_number fields0 perf _ hp hd, toFixed_zero d hz]
  refine ⟨hzero, ?_⟩
  rw [habsent, hzero]
  intro heq
  cases heq

/-- C3 at the initial status `{}` against the status whose `dailyChange` is `0`. -/
theorem dailyChangeLabel_performance_absent_witness :
    dailyChangeLabel (.obj []) = .ok .undefined ∧
      dailyChangeLabel (statusWithDailyChange (.finite zeroDouble)) = .ok (.str "0.00") ∧
      dailyChangeLabel (.obj []) ≠
        dailyChangeLabel (statusWithDailyChange (.finite zeroDouble)) :=
  have h := dailyChangeLabel_performance_absent [] rfl
  ⟨h.1, h.2 _ [("dailyChange", .num (.finite zeroDouble))] zeroDouble rfl rfl rfl⟩

/-- C4: when the `alerts` of the stored status hold the alerts `as`, at most `maxItems`
of them, the alerts panel shows one entry per alert, in the order of the sequence, each
with the `type`, `time` and `message` of its own alert. -/
theorem alertsPanel_one_entry_per_alert (fields : List (String × JsVal))
    (items : List JsVal) (as : List Alert) (maxItems : Nat)
    (h : fields.lookup "alerts" = some (.arr items))
    (hitems : items.map readAlert = as.map some) (_hlen : as.length ≤ maxItems) :
    alertsPanel (.obj fields) =
      .ok (some (as.enum.map fun ia =>
        ⟨ia.1, "alert " ++ ia.2.type,
          [.str "[", .str ia.2.time, .str "] ", .str ia.2.message]⟩)) :=
  alertsPanel_of_readAlert fields items as h hitems

/-- C4 on the two alerts of the example, with `maxItems = 5`. -/
theorem alertsPanel_one_entry_per_alert_witness :
    alertsPanel (statusWithAlerts [alertA, alertB]) =
      .ok (some [
        ⟨0, "alert info", [.str "[", .str "10:01", .str "] ", .str "A"]⟩,
        ⟨1, "alert warning", [.str "[", .str "10:02", .str "] ", .str "B"]⟩]) :=
  alertsPanel_one_entry_per_alert _ _ [alertA, alertB] 5 rfl rfl (by decide)

/-- C5, as stated, fails: a response with status 500 whose body is the JSON text
`{"active": true}` is applied to the stored status. -/
theorem non_success_response_stored :
    (⟨500, .fulfilled runningStatus⟩ : Response).ok = false ∧
      (applyFetch initialState (jsonResponse 500 runningStatus)).botStatus = runningStatus ∧
      (applyFetch initialState (jsonResponse 500 runningStatus)).botStatus ≠
        initialState.botStatus := by
  refine ⟨by decide, rfl, ?_⟩
  intro heq
  cases heq

/-- C5, amended: when the body is not valid JSON the chain is rejected and the state is
left as it was, whatever the HTTP status; when the body is valid JSON its value is
stored, whatever the HTTP status. -/
theorem malformed_body_not_stored (s : DashboardState) (status : Nat) :
    fetchStatus (malformedResponse status) = .rejected ∧
      applyFetch s (malformedResponse status) = s ∧
      ∀ data : JsVal, (applyFetch s (jsonResponse status data)).botStatus = data :=
  ⟨rfl, rfl, fun _ => rfl⟩

/-- C6: after a failed fetch, by a transport failure or by a body that is not valid
JSON, the state is the one before it. -/
theorem failed_fetch_keeps_status (s : DashboardState) :
    fetchStatus .rejected = .rejected ∧ applyFetch s .rejected = s ∧
      ∀ status : Nat, fetchStatus (malformedResponse status) = .rejected ∧
        applyFetch s (malformedResponse status) = s :=
  ⟨rfl, rfl, fun _ => ⟨rfl, rfl⟩⟩

/-- C7, as stated, fails: request 1 is issued before request 2, the chain of request 2
settles first with `{"active": false}`, the chain of request 1 settles after it with
`{"active": true}`, and the stored status is then that of request 1. -/
theorem late_response_overwrites :
    (run initialState [.requestIssued 1, .requestIssued 2,
        .chainSettled 2 (jsonResponse 200 stoppedStatus),
        .chainSettled 1 (jsonResponse 200 runningStatus)]).botStatus = runningStatus ∧
      runningStatus ≠ stoppedStatus := by
  refine ⟨rfl, ?_⟩
  intro heq
  cases heq

/-- C7, amended: the response that settles last is the one stored, whichever request
it answers; the final status is that of request 2 exactly when the two are equal. -/
theorem last_settled_response_wins (s : DashboardState) (d1 d2 : JsVal)
    (status1 status2 : Nat) :
    (run s [.requestIssued 1, .requestIssued 2,
        .chainSettled 2 (jsonResponse status2 d2),
        .chainSettled 1 (jsonResponse status1 d1)]).botStatus = d1 ∧
      ((run s [.requestIssued 1, .requestIssued 2,
        .chainSettled 2 (jsonResponse status2 d2),
        .chainSettled 1 (jsonResponse status1 d1)]).botStatus = d2 ↔ d1 = d2) :=
  ⟨rfl, Iff.rfl⟩

/-- C8: applying a parsed response `d` makes the stored status `d`, whatever the prior
state `p`; two prior states give the same stored status. -/
theorem response_replaces_status (p : DashboardState) (d : JsVal) (status : Nat) :
    (applyFetch p (jsonResponse status d)).botStatus = d ∧
      ∀ q : DashboardState, (applyFetch q (jsonResponse status d)).botStatus =
        (applyFetch p (jsonResponse status d)).botStatus :=
  ⟨rfl, fun _ => rfl⟩

/-- C10, as stated, fails: the alert with time "10:02" and message "B" has the key 1 in
the sequence `[A, B]` and the key 0 in the sequence `[B]`. -/
theorem alert_key_changes_with_position :
    alertsPanel (statusWithAlerts [alertA, alertB]) =
      .ok (some [
        ⟨0, "alert info", [.str "[", .str "10:01", .str "] ", .str "A"]⟩,
        ⟨1, "alert warning", [.str "[", .str "10:02", .str "] ", .str "B"]⟩]) ∧
    alertsPanel (statusWithAlerts [alertB]) =
      .ok (some [⟨0, "alert warning", [.str "[", .str "10:02", .str "] ", .str "B"]⟩]) :=
  ⟨rfl, rfl⟩

/-- C10, amended: the keys of the rendered alerts are the positions `0, 1, 2, ...` in
the sequence, whatever the `time` and `message` of the alerts. -/
theorem alert_keys_are_positions (fields : List (String × JsVal)) (items : List JsVal)
    (as : List Alert) (h : fields.lookup "alerts" = some (.arr items))
    (hitems : items.map readAlert = as.map some) :
    (alertsPanel (.obj fields)).map (Option.map (List.map AlertEntry.key)) =
      .ok (some (List.range as.length)) := by
  rw [alertsPanel_of_readAlert fields items as h hitems]
  simp only [Except.map, Option.map_some', List.map_map]
  have hkey : (AlertEntry.key ∘ fun ia : Nat × Alert =>
      (⟨ia.1, "alert " ++ ia.2.type,
        [.str "[", .str ia.2.time, .str "] ", .str ia.2.message]⟩ : AlertEntry)) = Prod.fst := by
    funext ia
    rfl
  rw [hkey, List.enum_map_fst]

/-- C10, amended, on the sequence `[A, B]`. -/
theorem alert_keys_are_positions_witness :
    (alertsPanel (statusWithAlerts [alertA, alertB])).map
        (Option.map (List.map AlertEntry.key)) = .ok (some [0, 1]) :=
  alert_keys_are_positions _ _ [alertA, alertB] rfl rfl

/-- C9: a submission (buy or sell) whose raw amount does not parse to a finite number
greater than 0 adds no call of the trade endpoint, shows the validation error unless a
request is pending, and from `Idle` leaves the controller in `Idle`. -/
theorem invalid_amount_refused (tc : TradeController) (side : Side) (rawAmount : String)
    (h : positiveAmount rawAmount = none) :
    (tc.submit side rawAmount).sent = tc.sent ∧
      (tc.state = .Idle → (tc.submit side rawAmount).state = .Idle ∧
        (tc.submit side rawAmount).validationError = true) := by
  unfold TradeController.submit
  constructor
  · cases hs : tc.state <;> simp [h]
  · intro hs
    simp [hs, h]

/-- C9 on the raw amounts "-1" and "abc", typed into the input and submitted with
either button from the idle controller. -/
theorem invalid_amount_refused_witness :
    positiveAmount "-1" = none ∧ positiveAmount "abc" = none ∧
      (handleBuy (setTradeAmount initialState "-1") .idle).sent = [] ∧
      (handleBuy (setTradeAmount initialState "-1") .idle).state = .Idle ∧
      (handleSell (setTradeAmount initialState "abc") .idle).sent = [] ∧
      (handleSell (setTradeAmount initialState "abc") .idle).state = .Idle :=
  have h1 := invalid_amount_refused .idle .buy "-1" (by decide)
  have h2 := invalid_amount_refused .idle .sell "abc" (by decide)
  ⟨by decide, by decide, h1.1, (h1.2 rfl).1, h2.1, (h2.2 rfl).1⟩

/-! ## The two-decimal rendering -/

/-- The digits do not depend on the fuel once it exceeds the number. -/
theorem decimalDigitsAux_fuel (f g n : Nat) (hf : n < f) (hg : n < g) :
    decimalDigitsAux f n = decimalDigitsAux g n := by
  induction f generalizing g n with
  | zero => omega
  | succ f ih =>
    cases g with
    | zero => omega
    | succ g =>
      simp only [decimalDigitsAux]
      split
      · rfl
      · rw [ih g (n / 10) (by omega) (by omega)]

/-- A number below ten has one digit. -/
theorem decimalDigits_lt (n : Nat) (h : n < 10) : decimalDigits n = [digitChar n] := by
  simp [decimalDigits, decimalDigitsAux, h]

/-- The last digit of a number from ten on is split off. -/
theorem decimalDigits_ge (n : Nat) (h : 10 ≤ n) :
    decimalDigits n = decimalDigits (n / 10) ++ [digitChar n] := by
  have h10 : ¬ n < 10 := by omega
  have key : decimalDigitsAux (n + 1) n = decimalDigitsAux n (n / 10) ++ [digitChar n] := by
    rw [decimalDigitsAux]
    simp only [h10, if_false]
  show decimalDigitsAux (n + 1) n = decimalDigitsAux (n / 10 + 1) (n / 10) ++ [digitChar n]
  rw [key, decimalDigitsAux_fuel n (n / 10 + 1) (n / 10) (by omega) (by omega)]

/-- The character of a digit is the one of the standard library. -/
theorem digitChar_eq (n : Nat) : digitChar n = Nat.digitChar (n % 10) := by
  have h : n % 10 < 10 := Nat.mod_lt _ (by decide)
  unfold digitChar
  interval_cases (n % 10) <;> rfl

/-- The digits are those of the standard library, put in front of the accumulator. -/
theorem toDigitsCore_eq (f n : Nat) (ds : List Char) (hf : n < f) :
    Nat.toDigitsCore 10 f n ds = decimalDigitsAux f n ++ ds := by
  induction f generalizing n ds with
  | zero => omega
  | succ f ih =>
    simp only [Nat.toDigitsCore, decimalDigitsAux]
    by_cases h : n < 10
    · have h0 : n / 10 = 0 := by omega
      simp [h, h0, digitChar_eq]
    · have h0 : n / 10 ≠ 0 := by omega
      simp only [h, h0, if_false]
      rw [ih (n / 10) _ (by omega), digitChar_eq]
      simp

/-- The digits of `n` are the characters of `toString n`. -/
theorem decimalDigits_eq_repr (n : Nat) : String.mk (decimalDigits n) = toString n := by
  show _ = Nat.repr n
  unfold Nat.repr Nat.toDigits decimalDigits
  rw [toDigitsCore_eq _ _ _ (by omega)]
  simp [List.asString]

/-- The layout of `toFixed(2)`: the digits of the hundreds, a point, tens and units. -/
theorem fixedDigits_two (n : Nat) :
    fixedDigits n 2 = decimalDigits (n / 100) ++ ['.', digitChar (n / 10), digitChar n] := by
  by_cases h0 : n = 0
  · subst h0; rfl
  by_cases h1 : n < 10
  · have e1 : n / 100 = 0 := by omega
    have e2 : n / 10 = 0 := by omega
    simp only [fixedDigits, h0, if_false, decimalDigits_lt n h1, e1, e2]
    rfl
  by_cases h2 : n < 100
  · have e1 : n / 100 = 0 := by omega
    rw [e1]
    simp only [fixedDigits, h0, if_false, decimalDigits_ge n (by omega),
      decimalDigits_lt (n / 10) (by omega)]
    rfl
  · have e : n / 10 / 10 = n / 100 := by omega
    have hlen : 0 < (decimalDigits (n / 100)).length := by
      by_cases h3 : n / 100 < 10
      · rw [decimalDigits_lt _ h3]; simp
      · rw [decimalDigits_ge _ (by omega)]; simp
    have hm : decimalDigits n =
        decimalDigits (n / 100) ++ [digitChar (n / 10), digitChar n] := by
      rw [decimalDigits_ge n (by omega), decimalDigits_ge (n / 10) (by omega), e]
      simp
    have hk : ¬ (decimalDigits (n / 100) ++ [digitChar (n / 10), digitChar n]).length ≤ 2 := by
      simp only [List.length_append, List.length_cons, List.length_nil]
      omega
    simp only [fixedDigits, h0, if_false, hm, hk]
    simp


/-- The absolute value of a double is the fraction `num / den`. -/
theorem Double.abs_toRat (d : Double) : |d.toRat| = (d.num : ℚ) / (d.den : ℚ) := by
  have hq : (0 : ℚ) ≤ (d.num : ℚ) / (d.den : ℚ) := by positivity
  unfold Double.toRat
  cases d.neg
  · simp [abs_of_nonneg hq]
  · simp [abs_of_nonneg hq]

/-- The sign test of `toFixed` is the sign of the mathematical value. -/
theorem Double.isNegative_iff (d : Double) : d.isNegative = true ↔ d.toRat < 0 := by
  have hden : (0 : ℚ) < (d.den : ℚ) := by exact_mod_cast d.den_pos
  have hnum : (0 : ℚ) < (d.num : ℚ) ↔ 0 < d.mant := by
    unfold Double.num
    constructor
    · intro h
      by_contra h0
      have : d.mant = 0 := by omega
      simp [this] at h
    · intro h
      have : 0 < d.mant * 2 ^ d.exp.toNat := by positivity
      exact_mod_cast this
  unfold Double.isNegative Double.toRat
  cases hn : d.neg
  · simp
    positivity
  · simp only [Bool.true_and, decide_eq_true_eq, if_true, neg_mul, one_mul, neg_neg_iff_pos]
    rw [← hnum]
    constructor
    · intro h; positivity
    · intro h
      by_contra h0
      have h1 : (d.num : ℚ) = 0 := le_antisymm (not_lt.mp h0) (by positivity)
      simp [h1] at h

/-- Below `10 ^ 21` the method `toFixed` takes the fixed-point branch. -/
theorem Double.small_of_abs_lt (d : Double) (h : |d.toRat| < 10 ^ 21) :
    ¬ (10 ^ 21 * d.den ≤ d.num) := by
  have hden : (0 : ℚ) < (d.den : ℚ) := by exact_mod_cast d.den_pos
  rw [d.abs_toRat, div_lt_iff₀ hden] at h
  intro hle
  have : ((10 ^ 21 * d.den : Nat) : ℚ) ≤ (d.num : ℚ) := by exact_mod_cast hle
  push_cast at this
  linarith

/-- The integer chosen by `toFixed(f)` is within one half of `|d| * 10 ^ f`. -/
theorem Double.scaledRound_close (d : Double) (f : Nat) :
    abs ((d.scaledRound f : ℚ) - 10 ^ f * abs d.toRat) ≤ 1 / 2 := by
  have hden : (0 : ℚ) < (d.den : ℚ) := by exact_mod_cast d.den_pos
  have hpos : 0 < 2 * d.den := by have := d.den_pos; omega
  have hlo : d.scaledRound f * (2 * d.den) ≤ 2 * d.num * 10 ^ f + d.den :=
    Nat.div_mul_le_self _ _
  have hhi : 2 * d.num * 10 ^ f + d.den < (d.scaledRound f + 1) * (2 * d.den) := by
    have hmod := Nat.mod_lt (2 * d.num * 10 ^ f + d.den) hpos
    have hdm := Nat.div_add_mod (2 * d.num * 10 ^ f + d.den) (2 * d.den)
    unfold Double.scaledRound
    rw [Nat.add_mul, Nat.mul_comm _ (2 * d.den)]
    omega
  have hlo' : (d.scaledRound f : ℚ) * (2 * d.den) ≤ 2 * d.num * 10 ^ f + d.den := by
    exact_mod_cast hlo
  have hhi' : (2 * d.num * 10 ^ f + d.den : ℚ) < ((d.scaledRound f : ℚ) + 1) * (2 * d.den) := by
    exact_mod_cast hhi
  have hx : (d.num : ℚ) = abs d.toRat * d.den := by
    rw [d.abs_toRat, div_mul_cancel₀]
    exact ne_of_gt hden
  rw [hx] at hlo' hhi'
  rw [abs_le]
  constructor
  · by_contra hc
    push_neg at hc
    have hgap : 0 < 2 * (10 ^ f * abs d.toRat) - 2 * (d.scaledRound f : ℚ) - 1 := by linarith
    have hprod := mul_pos hgap hden
    linarith
  · by_contra hc
    push_neg at hc
    have hgap : 0 < 2 * (d.scaledRound f : ℚ) - 2 * (10 ^ f * abs d.toRat) - 1 := by linarith
    have hprod := mul_pos hgap hden
    linarith


/-- The integer chosen by `toFixed(f)` is `|d| * 10 ^ f` rounded half up. -/
theorem Double.scaledRound_eq_floor (d : Double) (f : Nat) :
    d.scaledRound f = ⌊10 ^ f * abs d.toRat + 1 / 2⌋₊ := by
  have hclose := abs_le.mp (d.scaledRound_close f)
  have hden : (0 : ℚ) < (d.den : ℚ) := by exact_mod_cast d.den_pos
  have hpos : 0 < 2 * d.den := by have := d.den_pos; omega
  have hhi : 2 * d.num * 10 ^ f + d.den < (d.scaledRound f + 1) * (2 * d.den) := by
    have hmod := Nat.mod_lt (2 * d.num * 10 ^ f + d.den) hpos
    have hdm := Nat.div_add_mod (2 * d.num * 10 ^ f + d.den) (2 * d.den)
    unfold Double.scaledRound
    rw [Nat.add_mul, Nat.mul_comm _ (2 * d.den)]
    omega
  have hhi' : (2 * d.num * 10 ^ f + d.den : ℚ) < ((d.scaledRound f : ℚ) + 1) * (2 * d.den) := by
    exact_mod_cast hhi
  have hx : (d.num : ℚ) = abs d.toRat * d.den := by
    rw [d.abs_toRat, div_mul_cancel₀]
    exact ne_of_gt hden
  rw [hx] at hhi'
  symm
  rw [Nat.floor_eq_iff (by positivity)]
  constructor
  · linarith [hclose.2]
  · by_contra hc
    push_neg at hc
    have hgap : 0 ≤ 2 * (10 ^ f * abs d.toRat) - 2 * (d.scaledRound f : ℚ) - 1 := by linarith
    have hprod := mul_nonneg hgap (le_of_lt hden)
    linarith

/-- The method `toFixed(2)` below `10 ^ 21` rounds to two decimals. -/
theorem toFixed_two_of_abs_lt (d : Double) (h : abs d.toRat < 10 ^ 21) :
    toFixed (.finite d) 2 = roundedToTwoDecimals d.toRat := by
  have hbig := d.small_of_abs_lt h
  have hn := d.scaledRound_eq_floor 2
  norm_num at hn
  simp only [toFixed, hbig, if_false, fixedDigits_two, roundedToTwoDecimals]
  rw [← hn]
  have hsign : (if d.isNegative = true then ['-'] else []) =
      (if d.toRat < 0 then "-" else "").data := by
    by_cases hneg : d.toRat < 0
    · simp [hneg, d.isNegative_iff.mpr hneg]
    · have : d.isNegative = false := by
        cases hb : d.isNegative
        · rfl
        · exact absurd (d.isNegative_iff.mp hb) hneg
      simp [hneg, this]
  rw [hsign, ← decimalDigits_eq_repr, ← decimalDigits_eq_repr, ← decimalDigits_eq_repr,
    decimalDigits_lt _ (Nat.mod_lt _ (by decide)), decimalDigits_lt _ (Nat.mod_lt _ (by decide))]
  have hd1 : digitChar (d.scaledRound 2 / 10 % 10) = digitChar (d.scaledRound 2 / 10) := by
    simp [digitChar]
  have hd2 : digitChar (d.scaledRound 2 % 10) = digitChar (d.scaledRound 2) := by
    simp [digitChar]
  rw [hd1, hd2]
  apply String.ext
  simp [String.data_append]

/-- C2, amended: a stored status whose `dailyChange` is a finite number `x` with
`|x| < 10 ^ 21` renders the label `x` rounded to two digits after the decimal point,
ties away from zero, with the sign of `x`. -/
theorem dailyChangeLabel_two_decimals (fields perf : List (String × JsVal)) (d : Double)
    (hp : fields.lookup "performance" = some (.obj perf))
    (hd : perf.lookup "dailyChange" = some (.num (.finite d)))
    (hlt : abs d.toRat < 10 ^ 21) :
    dailyChangeLabel (.obj fields) = .ok (.str (roundedToTwoDecimals d.toRat)) := by
  rw [dailyChangeLabel_number fields perf _ hp hd, toFixed_two_of_abs_lt d hlt]

/-- C2, amended, at `x = -1.5`, which is rendered "-1.50". -/
theorem dailyChangeLabel_two_decimals_witness :
    abs minusOneAndHalf.toRat < 10 ^ 21 ∧
      dailyChangeLabel (statusWithDailyChange (.finite minusOneAndHalf)) =
        .ok (.str (roundedToTwoDecimals minusOneAndHalf.toRat)) ∧
      dailyChangeLabel (statusWithDailyChange (.finite minusOneAndHalf)) =
        .ok (.str "-1.50") := by
  have hlt : abs minusOneAndHalf.toRat < 10 ^ 21 := by
    have he : (-1 : ℤ).toNat = 0 := rfl
    rw [Double.abs_toRat]
    norm_num [Double.num, Double.den, minusOneAndHalf, he]
  exact ⟨hlt, dailyChangeLabel_two_decimals _ [("dailyChange", .num (.finite minusOneAndHalf))]
    minusOneAndHalf rfl rfl hlt, rfl⟩

/-- C2, as stated, fails: for `x = 10 ^ 21` the label is "1e+21", whereas `x` rounded to
two digits after the decimal point is "1000000000000000000000.00". -/
theorem large_daily_change_exponential :
    tenPow21.toRat = 10 ^ 21 ∧
      dailyChangeLabel (statusWithDailyChange (.finite tenPow21)) = .ok (.str "1e+21") ∧
      roundedToTwoDecimals tenPow21.toRat = "1000000000000000000000.00" := by
  have he : (21 : ℤ).toNat = 21 := rfl
  have he0 : (-21 : ℤ).toNat = 0 := rfl
  have hx : tenPow21.toRat = 10 ^ 21 := by
    norm_num [Double.toRat, Double.num, Double.den, tenPow21, he, he0]
  refine ⟨hx, rfl, ?_⟩
  have hfloor : ⌊(100 : ℚ) * abs (10 ^ 21) + 1 / 2⌋₊ = 10 ^ 23 := by
    rw [Nat.floor_eq_iff (by positivity)]
    norm_num
  unfold roundedToTwoDecimals
  rw [hx]
  simp only [hfloor]
  norm_num
  rfl

end Realbot
